import Mathlib

/-!
Verification of the VocalBuddy repository: the PCM-to-WAV container builder
and the speech-request orchestrator (`generateSpeech`), together with the
UI generation state machine of `App.tsx`.

Bytes are modelled as natural numbers (each field written modulo 256), byte
sequences as `List Nat`, JavaScript `undefined` as `Option.none`, and thrown
JavaScript errors as an explicit `Except` error value carrying the optional
`status` and `message` fields that the source reads.
-/

namespace VocalBuddy

/-- Little-endian encoding of a 16-bit unsigned field, as a two-byte list. -/
def u16le (v : Nat) : List Nat :=
  [v % 256, v / 256 % 256]

/-- Little-endian encoding of a 32-bit unsigned field, as a four-byte list. -/
def u32le (v : Nat) : List Nat :=
  [v % 256, v / 256 % 256, v / 65536 % 256, v / 16777216 % 256]

/-- ASCII bytes of the tag "RIFF". -/
def asciiRIFF : List Nat := [82, 73, 70, 70]

/-- ASCII bytes of the tag "WAVE". -/
def asciiWAVE : List Nat := [87, 65, 86, 69]

/-- ASCII bytes of the tag "fmt " (with the trailing space). -/
def asciiFmt : List Nat := [102, 109, 116, 32]

/-- ASCII bytes of the tag "data". -/
def asciiData : List Nat := [100, 97, 116, 97]

/-- Modelled from the spec: `createWavFile` (the `buildContainer` function of
`services/audioUtils`) is not present under `src/`; only its caller
`App.tsx` is. Section 4.2 of the spec gives its exact byte layout, which this
definition follows field by field: a fixed 44-byte RIFF/WAVE header with all
multi-byte integer fields little-endian (RIFF chunk size `36 + length`,
fmt chunk size 16, PCM format code 1, mono, sample rate 24000, byte rate
48000, block align 2, 16 bits per sample, data chunk size `length`),
followed by the PCM bytes verbatim. It is a total function: it never fails,
for the empty input included. -/
def buildContainer (pcm : List Nat) : List Nat :=
  asciiRIFF ++ u32le (36 + pcm.length) ++ asciiWAVE ++ asciiFmt ++
    u32le 16 ++ u16le 1 ++ u16le 1 ++ u32le 24000 ++ u32le (24000 * 2) ++
    u16le 2 ++ u16le 16 ++ asciiData ++ u32le pcm.length ++ pcm

/-- Reading four consecutive bytes of a byte sequence at offset `i` as a
little-endian 32-bit unsigned integer (absent positions read as 0). -/
def readU32le (l : List Nat) (i : Nat) : Nat :=
  l.getD i 0 + 256 * l.getD (i + 1) 0 + 65536 * l.getD (i + 2) 0 +
    16777216 * l.getD (i + 3) 0

/-- Cons normal form of `buildContainer`: the 44 header bytes followed by the
payload. -/
theorem buildContainer_eq (p : List Nat) :
    buildContainer p =
      82 :: 73 :: 70 :: 70 ::
      ((36 + p.length) % 256) :: ((36 + p.length) / 256 % 256) ::
      ((36 + p.length) / 65536 % 256) :: ((36 + p.length) / 16777216 % 256) ::
      87 :: 65 :: 86 :: 69 :: 102 :: 109 :: 116 :: 32 ::
      16 :: 0 :: 0 :: 0 :: 1 :: 0 :: 1 :: 0 ::
      192 :: 93 :: 0 :: 0 :: 128 :: 187 :: 0 :: 0 :: 2 :: 0 :: 16 :: 0 ::
      100 :: 97 :: 116 :: 97 ::
      (p.length % 256) :: (p.length / 256 % 256) ::
      (p.length / 65536 % 256) :: (p.length / 16777216 % 256) :: p := by
  simp [buildContainer, u32le, u16le, asciiRIFF, asciiWAVE, asciiFmt, asciiData]

/-- Recombining the four little-endian bytes of a value below `2 ^ 32`
recovers the value. -/
theorem u32le_decode (v : Nat) (h : v < 4294967296) :
    v % 256 + 256 * (v / 256 % 256) + 65536 * (v / 65536 % 256) +
      16777216 * (v / 16777216 % 256) = v := by
  omega

/-- C1: for every byte sequence `p` (the empty sequence included, and as long
as the sizes fit a uint32 field), `buildContainer p` has length
`44 + length p`, its bytes 4 to 7 read as a little-endian uint32 give
`36 + length p`, its bytes 40 to 43 read as a little-endian uint32 give
`length p`, and its final `length p` bytes are exactly `p`. The function is
total, so it never fails on any input. -/
theorem C1_buildContainer_spec (p : List Nat) (h : 36 + p.length < 4294967296) :
    (buildContainer p).length = 44 + p.length ∧
    readU32le (buildContainer p) 4 = 36 + p.length ∧
    readU32le (buildContainer p) 40 = p.length ∧
    (buildContainer p).drop 44 = p := by
  refine ⟨?_, ?_, ?_, ?_⟩
  · rw [buildContainer_eq]; simp; omega
  · show readU32le (buildContainer p) 4 = 36 + p.length
    rw [buildContainer_eq]
    show (36 + p.length) % 256 + 256 * ((36 + p.length) / 256 % 256) +
        65536 * ((36 + p.length) / 65536 % 256) +
        16777216 * ((36 + p.length) / 16777216 % 256) = 36 + p.length
    exact u32le_decode _ h
  · rw [buildContainer_eq]
    show p.length % 256 + 256 * (p.length / 256 % 256) +
        65536 * (p.length / 65536 % 256) +
        16777216 * (p.length / 16777216 % 256) = p.length
    exact u32le_decode _ (by omega)
  · rw [buildContainer_eq]
    rfl

/-- Witness for C1 at the concrete payload `[7, 8, 9]`. -/
theorem C1_buildContainer_spec_witness :
    (buildContainer [7, 8, 9]).length = 44 + 3 ∧
    readU32le (buildContainer [7, 8, 9]) 4 = 36 + 3 ∧
    readU32le (buildContainer [7, 8, 9]) 40 = 3 ∧
    (buildContainer [7, 8, 9]).drop 44 = [7, 8, 9] :=
  C1_buildContainer_spec [7, 8, 9] (by decide)

/-! ## The speech request orchestrator (`generateSpeech` of `geminiService`) -/

/-- The two optional fields (`status` and `message`) that the source reads
off a thrown JavaScript error value in its catch blocks. -/
structure JsError where
  status : Option Nat
  message : Option String
deriving Repr, DecidableEq

/-- The `inlineData` field of a response part: a MIME type and an optional
base64 payload (`data` is optional in the service response type). -/
structure InlineData where
  mimeType : String
  data : Option String
deriving Repr, DecidableEq

/-- A content part of a response candidate: optional text and optional
inline data. -/
structure Part where
  text : Option String
  inlineData : Option InlineData
deriving Repr, DecidableEq

/-- The `content` of a candidate, carrying its ordered list of parts. -/
structure Content where
  parts : List Part
deriving Repr, DecidableEq

/-- A response candidate. -/
structure Candidate where
  content : Content
deriving Repr, DecidableEq

/-- A speech synthesis response: `candidates` is optional, matching the
optional-chaining read `response.candidates?.[0]` in the source. -/
structure SynthResponse where
  candidates : Option (List Candidate)
deriving Repr, DecidableEq

/-- A translation response: the source only reads its optional `text`. -/
structure TranslationResponse where
  text : Option String
deriving Repr, DecidableEq

/-- One outbound service call made by the orchestrator, with the argument
the source passes: the translation prompt, or the text and voice sent to
speech synthesis. -/
inductive ServiceCall where
  | translate (contents : String)
  | synthesize (text : String) (voice : String)
deriving Repr, DecidableEq

/-- One character list starts with another. -/
def listStartsWith : List Char → List Char → Bool
  | _, [] => true
  | [], _ :: _ => false
  | c :: cs, d :: ds => c == d && listStartsWith cs ds

/-- JavaScript `s.startsWith(pre)` on the character lists of the strings. -/
def strStartsWith (s pre : String) : Bool :=
  listStartsWith s.data pre.data

/-- A character list has another as a contiguous sublist. -/
def listHasSub (pat : List Char) : List Char → Bool
  | [] => pat.isEmpty
  | c :: rest => listStartsWith (c :: rest) pat || listHasSub pat rest

/-- JavaScript `s.includes(pat)`: `pat` occurs as a substring of `s`. -/
def strContains (s pat : String) : Bool :=
  listHasSub pat.data s.data

/-- Dropping leading whitespace from a character list. -/
def dropLeadingWs : List Char → List Char
  | [] => []
  | c :: rest => if c.isWhitespace then dropLeadingWs rest else c :: rest

/-- JavaScript `s.trim()`: whitespace removed from both ends. -/
def strTrim (s : String) : String :=
  ⟨(dropLeadingWs (dropLeadingWs s.data).reverse).reverse⟩

/-- JavaScript `s.slice(0, n)`: the first `n` characters. -/
def strTake (s : String) (n : Nat) : String :=
  ⟨s.data.take n⟩

/-- A single apostrophe character, kept out of string literals. -/
def apos : String := (Char.ofNat 39).toString

/-- Message thrown when the response has no candidate. -/
def blockedMsg : String :=
  "The request was blocked or returned no results. Please try a different sentence."

/-- Message thrown when no audio payload is found in the first candidate. -/
def cannotProcessMsg : String :=
  "The speech engine could not process this text. Please try again with simpler wording."

/-- Replacement message thrown for 500-class errors. -/
def retryMsg : String :=
  "Gemini server had a momentary hiccup (Error 500). Please tap " ++ apos ++
    "Translate & Speak" ++ apos ++ " again."

/-- Fallback message shown by `handleGenerate` when the caught error has no
truthy message. -/
def connectionLostMsg : String := "Connection lost. Please try again."

/-- Instruction prepended to the original text when translation fails. -/
def mlFallbackInstruction : String := "Read the following in Malayalam: "

/-- The translation prompt built from the input text. -/
def translationPrompt (text : String) : String :=
  "Translate the following English text to natural Malayalam. Output ONLY the translation, nothing else: \"" ++
    text ++ "\""

/-- Step 1 of `generateSpeech`, run only when the language is `ml`: on a
translation response whose text trims to something non-empty the trimmed
translation becomes the target text (`const translated = response.text?.trim();
if (translated) targetText = translated;`), otherwise the original text is
kept; when the translation call throws, the target text is the original text
behind the Malayalam reading instruction. -/
def applyTranslation (text : String) (r : Except JsError TranslationResponse) :
    String :=
  match r with
  | .ok resp =>
    match resp.text with
    | some t => if strTrim t = "" then text else strTrim t
    | none => text
  | .error _ => mlFallbackInstruction ++ text

/-- The predicate of `parts.find(p => p.inlineData && p.inlineData.mimeType.startsWith("audio/"))`. -/
def isAudioPart (p : Part) : Bool :=
  match p.inlineData with
  | some d => strStartsWith d.mimeType "audio/"
  | none => false

/-- The optional-chaining read `audioPart?.inlineData?.data` on a part. -/
def partAudioData (p : Part) : Option String :=
  p.inlineData.bind InlineData.data

/-- Extraction of the base64 audio from a synthesis response: take the first
candidate (throwing the blocked message when `candidates` is absent or
empty), find the first part with an audio MIME type, and return its data;
`if (!base64Audio) throw` treats an absent payload and the empty string the
same way, both falsy. -/
def extractAudio (resp : SynthResponse) : Except JsError String :=
  match resp.candidates.bind List.head? with
  | none => .error ⟨none, some blockedMsg⟩
  | some c =>
    match (c.content.parts.find? isAudioPart).bind partAudioData with
    | none => .error ⟨none, some cannotProcessMsg⟩
    | some s => if s = "" then .error ⟨none, some cannotProcessMsg⟩ else .ok s

/-- The catch block around step 2: an error whose `status` is 500 or whose
`message` contains "500" is replaced by a fresh retry-suggesting error (a
plain `Error`, so it carries no `status`); every other error is rethrown
unchanged. -/
def catchTransform (e : JsError) : JsError :=
  if e.status == some 500 || strContains (e.message.getD "") "500" then
    ⟨none, some retryMsg⟩
  else e

/-- Step 2 of `generateSpeech`: call speech synthesis on the target text and
voice, extract the audio payload, and route every error thrown inside the
try block (the transport error of the call itself as well as the two
explicit throws of the extraction) through the catch block. -/
def synthStep (targetText voice : String)
    (synthSvc : String → String → Except JsError SynthResponse) :
    Except JsError String :=
  match synthSvc targetText voice with
  | .error e => .error (catchTransform e)
  | .ok resp =>
    match extractAudio resp with
    | .ok s => .ok s
    | .error e => .error (catchTransform e)

/-- The orchestrator `generateSpeech(text, voiceName, language)` of
`services/geminiService`, with the two remote capabilities passed in as
oracles. It returns the outcome together with the list of outbound calls
made, in order: when the language is `ml` it first calls translation with
the translation prompt and computes the target text per
`applyTranslation`; otherwise the target text is the input unchanged; it
then calls speech synthesis exactly once with the target text and voice. -/
def generateSpeech (text voice language : String)
    (transSvc : String → Except JsError TranslationResponse)
    (synthSvc : String → String → Except JsError SynthResponse) :
    Except JsError String × List ServiceCall :=
  if language = "ml" then
    (synthStep (applyTranslation text (transSvc (translationPrompt text)))
        voice synthSvc,
      [ServiceCall.translate (translationPrompt text),
       ServiceCall.synthesize
         (applyTranslation text (transSvc (translationPrompt text))) voice])
  else
    (synthStep text voice synthSvc, [ServiceCall.synthesize text voice])

/-- A synthesis response carrying one candidate with one audio part whose
base64 payload is "AAA=". -/
def goodResponse : SynthResponse :=
  ⟨some [⟨⟨[⟨none, some ⟨"audio/wav", some "AAA="⟩⟩]⟩⟩]⟩

/-- A synthesis oracle that always answers with `goodResponse`. -/
def goodSynthSvc : String → String → Except JsError SynthResponse :=
  fun _ _ => .ok goodResponse

/-- A translation oracle that answers with a response carrying no text. -/
def noTextTransSvc : String → Except JsError TranslationResponse :=
  fun _ => .ok ⟨none⟩

/-- The message that `handleGenerate` surfaces on failure:
`err.message || "Connection lost. Please try again."`, where an absent
message and an empty message are both falsy and fall back. -/
def displayedError (m : Option String) : String :=
  match m with
  | some s => if s = "" then connectionLostMsg else s
  | none => connectionLostMsg

/-- The outcome of `generateSpeech` is the synthesis step applied to the
target text selected by the language branch. -/
theorem generateSpeech_fst (text voice language : String)
    (transSvc : String → Except JsError TranslationResponse)
    (synthSvc : String → String → Except JsError SynthResponse) :
    (generateSpeech text voice language transSvc synthSvc).1 =
      synthStep
        (if language = "ml" then
          applyTranslation text (transSvc (translationPrompt text))
         else text) voice synthSvc := by
  by_cases hL : language = "ml" <;> simp [generateSpeech, hL]

/-- C2: with the source language `en`, `generateSpeech` makes no translation
call and calls speech synthesis exactly once, with the input text unchanged,
whatever the oracles answer; and in the concrete scenario (text "Hello",
voice "Zephyr", a response with one candidate holding one audio part with
payload "AAA=") it returns exactly "AAA=". -/
theorem C2_en_skips_translation (text voice : String)
    (transSvc : String → Except JsError TranslationResponse)
    (synthSvc : String → String → Except JsError SynthResponse) :
    (generateSpeech text voice "en" transSvc synthSvc).2 =
      [ServiceCall.synthesize text voice] ∧
    (generateSpeech "Hello" "Zephyr" "en" transSvc goodSynthSvc).1 =
      Except.ok "AAA=" := by
  constructor
  · simp [generateSpeech]
  · rfl

/-- C3 counterexample: on input "Hi" with language `ml`, a successful
translation call returning the non-empty text " " does not lead to synthesis
being called with " ": since " " trims to the empty string, the source keeps
the original text, and synthesis is called with "Hi". -/
theorem C3_counterexample :
    (generateSpeech "Hi" "Zephyr" "ml" (fun _ => .ok ⟨some " "⟩)
        goodSynthSvc).2 =
      [ServiceCall.translate (translationPrompt "Hi"),
       ServiceCall.synthesize "Hi" "Zephyr"] ∧
    (" " : String) ≠ "" ∧
    ServiceCall.synthesize " " "Zephyr" ∉
      (generateSpeech "Hi" "Zephyr" "ml" (fun _ => .ok ⟨some " "⟩)
        goodSynthSvc).2 :=
  ⟨rfl, by decide, by decide⟩

/-- C3 amended: with language `ml`, if the translation call returns text
whose trim is non-empty, synthesis is called with the trimmed translated
text; if the translation call fails, synthesis is called with the original
text behind the Malayalam reading instruction, and the translation failure
alone never makes `generateSpeech` fail: with a good synthesis answer it
still returns the audio. -/
theorem C3_ml_translation_amended (text voice : String)
    (transSvc : String → Except JsError TranslationResponse)
    (synthSvc : String → String → Except JsError SynthResponse) :
    (∀ t, transSvc (translationPrompt text) = .ok ⟨some t⟩ → strTrim t ≠ "" →
      (generateSpeech text voice "ml" transSvc synthSvc).2 =
        [ServiceCall.translate (translationPrompt text),
         ServiceCall.synthesize (strTrim t) voice]) ∧
    (∀ e, transSvc (translationPrompt text) = .error e →
      (generateSpeech text voice "ml" transSvc synthSvc).2 =
        [ServiceCall.translate (translationPrompt text),
         ServiceCall.synthesize (mlFallbackInstruction ++ text) voice]) ∧
    (∀ e resp a, transSvc (translationPrompt text) = .error e →
      synthSvc (mlFallbackInstruction ++ text) voice = .ok resp →
      extractAudio resp = .ok a →
      (generateSpeech text voice "ml" transSvc synthSvc).1 = .ok a) := by
  refine ⟨?_, ?_, ?_⟩
  · intro t h ht
    simp [generateSpeech, applyTranslation, h, ht]
  · intro e h
    simp [generateSpeech, applyTranslation, h]
  · intro e resp a h hs hx
    simp [generateSpeech, applyTranslation, h, synthStep, hs, hx]

/-- Witness for C3 amended: a translation answering " X " makes synthesis
run on "X"; a failing translation makes synthesis run on the prefixed
original, and with a good synthesis response the call still succeeds. -/
theorem C3_ml_translation_amended_witness :
    (generateSpeech "Hi" "Zephyr" "ml" (fun _ => .ok ⟨some " X "⟩)
        goodSynthSvc).2 =
      [ServiceCall.translate (translationPrompt "Hi"),
       ServiceCall.synthesize (strTrim " X ") "Zephyr"] ∧
    (generateSpeech "Hi" "Zephyr" "ml" (fun _ => .error ⟨none, none⟩)
        goodSynthSvc).2 =
      [ServiceCall.translate (translationPrompt "Hi"),
       ServiceCall.synthesize (mlFallbackInstruction ++ "Hi") "Zephyr"] ∧
    (generateSpeech "Hi" "Zephyr" "ml" (fun _ => .error ⟨none, none⟩)
        goodSynthSvc).1 = .ok "AAA=" :=
  ⟨(C3_ml_translation_amended "Hi" "Zephyr" _ goodSynthSvc).1 " X " rfl
      (by decide),
   (C3_ml_translation_amended "Hi" "Zephyr" _ goodSynthSvc).2.1
      ⟨none, none⟩ rfl,
   (C3_ml_translation_amended "Hi" "Zephyr" _ goodSynthSvc).2.2
      ⟨none, none⟩ goodResponse "AAA=" rfl rfl rfl⟩

/-- C10: with language `ml`, when the translation call succeeds but its
text is absent or trims to the empty string, synthesis is called with the
original input text unchanged, with no instruction in front of it; the
Malayalam reading instruction is applied only when the translation call
throws. -/
theorem C10_ml_empty_translation_uses_original (text voice : String)
    (transSvc : String → Except JsError TranslationResponse)
    (synthSvc : String → String → Except JsError SynthResponse) :
    (transSvc (translationPrompt text) = .ok ⟨none⟩ →
      (generateSpeech text voice "ml" transSvc synthSvc).2 =
        [ServiceCall.translate (translationPrompt text),
         ServiceCall.synthesize text voice]) ∧
    (∀ t, transSvc (translationPrompt text) = .ok ⟨some t⟩ → strTrim t = "" →
      (generateSpeech text voice "ml" transSvc synthSvc).2 =
        [ServiceCall.translate (translationPrompt text),
         ServiceCall.synthesize text voice]) ∧
    (∀ e, transSvc (translationPrompt text) = .error e →
      (generateSpeech text voice "ml" transSvc synthSvc).2 =
        [ServiceCall.translate (translationPrompt text),
         ServiceCall.synthesize (mlFallbackInstruction ++ text) voice]) := by
  refine ⟨?_, ?_, ?_⟩
  · intro h
    simp [generateSpeech, applyTranslation, h]
  · intro t h ht
    simp [generateSpeech, applyTranslation, h, ht]
  · intro e h
    simp [generateSpeech, applyTranslation, h]

/-- Witness for C10 at a translation with no text, one trimming to empty,
and a throwing one. -/
theorem C10_ml_empty_translation_uses_original_witness :
    (generateSpeech "Hi" "Zephyr" "ml" noTextTransSvc goodSynthSvc).2 =
      [ServiceCall.translate (translationPrompt "Hi"),
       ServiceCall.synthesize "Hi" "Zephyr"] ∧
    (generateSpeech "Hi" "Zephyr" "ml" (fun _ => .ok ⟨some "  "⟩)
        goodSynthSvc).2 =
      [ServiceCall.translate (translationPrompt "Hi"),
       ServiceCall.synthesize "Hi" "Zephyr"] ∧
    (generateSpeech "Hi" "Zephyr" "ml" (fun _ => .error ⟨some 404, none⟩)
        goodSynthSvc).2 =
      [ServiceCall.translate (translationPrompt "Hi"),
       ServiceCall.synthesize (mlFallbackInstruction ++ "Hi") "Zephyr"] :=
  ⟨(C10_ml_empty_translation_uses_original "Hi" "Zephyr" noTextTransSvc
      goodSynthSvc).1 rfl,
   (C10_ml_empty_translation_uses_original "Hi" "Zephyr" _ goodSynthSvc).2.1
      "  " rfl (by decide),
   (C10_ml_empty_translation_uses_original "Hi" "Zephyr" _ goodSynthSvc).2.2
      ⟨some 404, none⟩ rfl⟩

/-- C4: whenever the synthesis response carries an absent or empty candidate
list, `generateSpeech` rejects with the blocked-or-no-results error, whose
message contains both "blocked" and "no results". -/
theorem C4_no_candidate_rejects (text voice language : String)
    (transSvc : String → Except JsError TranslationResponse)
    (resp : SynthResponse)
    (h : resp.candidates = none ∨ resp.candidates = some []) :
    (generateSpeech text voice language transSvc (fun _ _ => .ok resp)).1 =
      .error ⟨none, some blockedMsg⟩ ∧
    strContains blockedMsg "blocked" = true ∧
    strContains blockedMsg "no results" = true := by
  have hx : extractAudio resp = .error ⟨none, some blockedMsg⟩ := by
    rcases h with h | h <;> simp [extractAudio, h]
  have hct : catchTransform ⟨none, some blockedMsg⟩ = ⟨none, some blockedMsg⟩ :=
    rfl
  refine ⟨?_, by decide, by decide⟩
  rw [generateSpeech_fst]
  simp [synthStep, hx, hct]

/-- Witness for C4 at an empty candidate list. -/
theorem C4_no_candidate_rejects_witness :
    (generateSpeech "Hi" "Zephyr" "en" noTextTransSvc
        (fun _ _ => .ok ⟨some []⟩)).1 =
      .error ⟨none, some blockedMsg⟩ ∧
    strContains blockedMsg "blocked" = true ∧
    strContains blockedMsg "no results" = true :=
  C4_no_candidate_rejects "Hi" "Zephyr" "en" noTextTransSvc ⟨some []⟩
    (Or.inr rfl)

/-- A part with an audio MIME type whose base64 payload is the empty
string. -/
def emptyDataPart : Part := ⟨none, some ⟨"audio/pcm", some ""⟩⟩

/-- A synthesis response whose only candidate holds only `emptyDataPart`. -/
def emptyDataResponse : SynthResponse := ⟨some [⟨⟨[emptyDataPart]⟩⟩]⟩

/-- C5 counterexample: in `emptyDataResponse` the first candidate does have
a part with an audio MIME type (the find succeeds), yet `generateSpeech`
rejects with the cannot-process error, because the payload of that part is
the empty string and the falsy check `!base64Audio` treats it as missing;
so "rejects if and only if no such part exists" fails as stated. -/
theorem C5_counterexample :
    ((⟨⟨[emptyDataPart]⟩⟩ : Candidate).content.parts.find? isAudioPart =
      some emptyDataPart) ∧
    (generateSpeech "Hi" "Zephyr" "en" noTextTransSvc
        (fun _ _ => .ok emptyDataResponse)).1 =
      .error ⟨none, some cannotProcessMsg⟩ :=
  ⟨rfl, rfl⟩

/-- C5 amended: on a response with a first candidate, `generateSpeech`
returns the base64 payload of the first part, in order, whose inline data
has a MIME type beginning with "audio/", provided that payload is present
and non-empty; and it rejects with the cannot-process error exactly when no
such part exists, or when the payload of the first such part is absent or
empty. -/
theorem C5_audio_extraction_amended (text voice language : String)
    (transSvc : String → Except JsError TranslationResponse)
    (resp : SynthResponse) (c : Candidate) (rest : List Candidate)
    (hc : resp.candidates = some (c :: rest)) :
    (∀ p s, c.content.parts.find? isAudioPart = some p →
      partAudioData p = some s → s ≠ "" →
      (generateSpeech text voice language transSvc (fun _ _ => .ok resp)).1 =
        .ok s) ∧
    (c.content.parts.find? isAudioPart = none →
      (generateSpeech text voice language transSvc (fun _ _ => .ok resp)).1 =
        .error ⟨none, some cannotProcessMsg⟩) ∧
    (∀ p, c.content.parts.find? isAudioPart = some p →
      (partAudioData p = none ∨ partAudioData p = some "") →
      (generateSpeech text voice language transSvc (fun _ _ => .ok resp)).1 =
        .error ⟨none, some cannotProcessMsg⟩) := by
  have hct : catchTransform ⟨none, some cannotProcessMsg⟩ =
      ⟨none, some cannotProcessMsg⟩ := rfl
  refine ⟨?_, ?_, ?_⟩
  · intro p s hp hs hne
    rw [generateSpeech_fst]
    simp [synthStep, extractAudio, hc, hp, hs, hne]
  · intro hp
    rw [generateSpeech_fst]
    simp [synthStep, extractAudio, hc, hp, hct]
  · intro p hp hd
    rw [generateSpeech_fst]
    rcases hd with hd | hd <;> simp [synthStep, extractAudio, hc, hp, hd, hct]

/-- Witness for C5 amended: extraction succeeds on the good response, and
rejects on a candidate with no audio part and on the empty-payload part. -/
theorem C5_audio_extraction_amended_witness :
    (generateSpeech "Hi" "Zephyr" "en" noTextTransSvc
        (fun _ _ => .ok goodResponse)).1 = .ok "AAA=" ∧
    (generateSpeech "Hi" "Zephyr" "en" noTextTransSvc
        (fun _ _ => .ok ⟨some [⟨⟨[⟨some "hello", none⟩]⟩⟩]⟩)).1 =
      .error ⟨none, some cannotProcessMsg⟩ ∧
    (generateSpeech "Hi" "Zephyr" "en" noTextTransSvc
        (fun _ _ => .ok emptyDataResponse)).1 =
      .error ⟨none, some cannotProcessMsg⟩ :=
  ⟨(C5_audio_extraction_amended "Hi" "Zephyr" "en" noTextTransSvc
      goodResponse ⟨⟨[⟨none, some ⟨"audio/wav", some "AAA="⟩⟩]⟩⟩ [] rfl).1
      ⟨none, some ⟨"audio/wav", some "AAA="⟩⟩ "AAA=" rfl rfl (by decide),
   (C5_audio_extraction_amended "Hi" "Zephyr" "en" noTextTransSvc
      ⟨some [⟨⟨[⟨some "hello", none⟩]⟩⟩]⟩ ⟨⟨[⟨some "hello", none⟩]⟩⟩ []
      rfl).2.1 rfl,
   (C5_audio_extraction_amended "Hi" "Zephyr" "en" noTextTransSvc
      emptyDataResponse ⟨⟨[emptyDataPart]⟩⟩ [] rfl).2.2 emptyDataPart rfl
      (Or.inr rfl)⟩

/-- C6: on a transport error from the synthesis call whose status is 500,
`generateSpeech` rejects with the fixed retry-suggesting error, which is a
different error value from the raw transport error (it carries no status),
and whose message asks to tap again. -/
theorem C6_status500_retry (text voice language : String)
    (transSvc : String → Except JsError TranslationResponse)
    (e : JsError) (h : e.status = some 500) :
    (generateSpeech text voice language transSvc (fun _ _ => .error e)).1 =
      .error ⟨none, some retryMsg⟩ ∧
    (⟨none, some retryMsg⟩ : JsError) ≠ e ∧
    strContains retryMsg "again" = true := by
  have hct : catchTransform e = ⟨none, some retryMsg⟩ := by
    simp [catchTransform, h]
  refine ⟨?_, ?_, by decide⟩
  · rw [generateSpeech_fst]
    simp [synthStep, hct]
  · intro he
    rw [← he] at h
    simp at h

/-- Witness for C6 at a status-500 transport error. -/
theorem C6_status500_retry_witness :
    (generateSpeech "Hi" "Zephyr" "en" noTextTransSvc
        (fun _ _ => .error ⟨some 500, some "boom"⟩)).1 =
      .error ⟨none, some retryMsg⟩ ∧
    (⟨none, some retryMsg⟩ : JsError) ≠ ⟨some 500, some "boom"⟩ ∧
    strContains retryMsg "again" = true :=
  C6_status500_retry "Hi" "Zephyr" "en" noTextTransSvc
    ⟨some 500, some "boom"⟩ rfl

/-- A transport error whose status is 404 but whose message mentions 500. -/
def err404with500msg : JsError := ⟨some 404, some "HTTP 500 from upstream"⟩

/-- C7 counterexample: a transport error whose status is not 500 is not
always propagated unchanged: when its message contains "500" the source
replaces it with the fixed retry error. -/
theorem C7_counterexample :
    err404with500msg.status ≠ some 500 ∧
    (generateSpeech "Hi" "Zephyr" "en" noTextTransSvc
        (fun _ _ => .error err404with500msg)).1 =
      .error ⟨none, some retryMsg⟩ ∧
    (⟨none, some retryMsg⟩ : JsError) ≠ err404with500msg :=
  ⟨by decide, rfl, by decide⟩

/-- C7 amended: a transport error from the synthesis call whose status is
not 500 and whose message does not contain "500" is rethrown by
`generateSpeech` unchanged, with its original message; and at the UI
boundary a failure carrying no message is surfaced as the generic
connection-lost fallback. -/
theorem C7_non500_propagates_amended (text voice language : String)
    (transSvc : String → Except JsError TranslationResponse)
    (e : JsError) (h1 : e.status ≠ some 500)
    (h2 : strContains (e.message.getD "") "500" = false) :
    (generateSpeech text voice language transSvc (fun _ _ => .error e)).1 =
      .error e ∧
    displayedError none = connectionLostMsg := by
  have hb : (e.status == some 500) = false := by
    simp [h1]
  have hct : catchTransform e = e := by
    simp [catchTransform, hb, h2]
  refine ⟨?_, rfl⟩
  rw [generateSpeech_fst]
  simp [synthStep, hct]

/-- Witness for C7 amended at a 404 error whose message has no "500". -/
theorem C7_non500_propagates_amended_witness :
    (generateSpeech "Hi" "Zephyr" "en" noTextTransSvc
        (fun _ _ => .error ⟨some 404, some "boom"⟩)).1 =
      .error ⟨some 404, some "boom"⟩ ∧
    displayedError none = connectionLostMsg :=
  C7_non500_propagates_amended "Hi" "Zephyr" "en" noTextTransSvc
    ⟨some 404, some "boom"⟩ (by decide) (by decide)

/-! ## The generation state machine of `App.tsx`

The React state is the four fields of `AudioGenerationState` plus the text
input. The extra `pending` field is not a React state field: it counts the
promises launched by `handleGenerate` that have not yet settled, which is
what makes the asynchronous completions expressible — every launched call
eventually runs its success or failure `setStatus`, whatever the state has
become in the meantime. -/

/-- The UI state: the text input, the four fields of
`AudioGenerationState`, and the number of unsettled `generateSpeech`
promises. -/
structure AppState where
  text : String
  isGenerating : Bool
  audioUrl : Option String
  error : Option String
  rawBuffer : Option (List Nat)
  pending : Nat
deriving Repr, DecidableEq

/-- The UI events: typing (truncated to 500 characters), pressing the
generate button, the success or failure completion of a launched request,
the clear button, and picking a language. Voice selection does not touch
this state and is omitted. -/
inductive UiEvent where
  | setText (s : String)
  | submit
  | resolveSuccess (url : String) (buf : List Nat)
  | resolveFailure (msg : Option String)
  | clear
  | selectLanguage
deriving Repr, DecidableEq

/-- The initial state: empty text, not generating, no result, no error. -/
def initState : AppState := ⟨"", false, none, none, none, 0⟩

/-- One UI event applied to a state; `none` means the event cannot occur
there. `submit` is guarded by the disabled attribute of the generate button
(`status.isGenerating || !text.trim()`) together with the early return of
`handleGenerate` (`if (!text.trim()) return`), and launches one promise.
`resolveSuccess` replaces the whole status record; `resolveFailure` spreads
the previous record, so it keeps `audioUrl` and `rawBuffer` as they are.
`clear` empties the text and resets the status record but cannot cancel a
launched promise; language selection keeps `isGenerating` and clears the
result and error fields. -/
def step (s : AppState) : UiEvent → Option AppState
  | .setText t => some { s with text := strTake t 500 }
  | .submit =>
    if s.isGenerating = false ∧ strTrim s.text ≠ "" then
      some { s with isGenerating := true, error := none, audioUrl := none,
                    rawBuffer := none, pending := s.pending + 1 }
    else none
  | .resolveSuccess url buf =>
    if 0 < s.pending then
      some { s with isGenerating := false, audioUrl := some url,
                    error := none, rawBuffer := some buf,
                    pending := s.pending - 1 }
    else none
  | .resolveFailure msg =>
    if 0 < s.pending then
      some { s with isGenerating := false,
                    error := some (displayedError msg),
                    pending := s.pending - 1 }
    else none
  | .clear => some ⟨"", false, none, none, none, s.pending⟩
  | .selectLanguage =>
    some { s with audioUrl := none, rawBuffer := none, error := none }

/-- Running a list of UI events from a state. -/
def run (s : AppState) : List UiEvent → Option AppState
  | [] => some s
  | e :: es =>
    match step s e with
    | some s1 => run s1 es
    | none => none

/-- Running a list of UI events, refusing any `clear` fired while a request
is still pending: the discipline under which the spec reasoning about a
single in-flight request is sound. -/
def runSafe (s : AppState) : List UiEvent → Option AppState
  | [] => some s
  | e :: es =>
    if e = .clear ∧ s.pending ≠ 0 then none
    else
      match step s e with
      | some s1 => runSafe s1 es
      | none => none

/-- The inductive invariant of clear-safe executions: the pending count is
tied to the `isGenerating` flag, a generating state holds no result and no
error, and an error excludes both result fields. -/
def StateInv (s : AppState) : Prop :=
  s.pending = (if s.isGenerating then 1 else 0) ∧
  (s.isGenerating = true → s.audioUrl = none ∧ s.rawBuffer = none ∧
    s.error = none) ∧
  (s.error ≠ none → s.audioUrl = none ∧ s.rawBuffer = none)

/-- A single step fired under the clear-safe discipline preserves
`StateInv`. -/
theorem step_preserves_inv {s s1 : AppState} {e : UiEvent}
    (hI : StateInv s) (hsafe : e = .clear → s.pending = 0)
    (h : step s e = some s1) : StateInv s1 := by
  obtain ⟨h1, h2, h3⟩ := hI
  cases e with
  | setText t =>
    simp [step] at h
    subst h
    exact ⟨h1, h2, h3⟩
  | submit =>
    simp [step] at h
    obtain ⟨⟨hg, ht⟩, h⟩ := h
    subst h
    rw [hg] at h1
    simp at h1
    refine ⟨by simp [h1], fun _ => ⟨rfl, rfl, rfl⟩, fun hc => absurd rfl hc⟩
  | resolveSuccess url buf =>
    simp [step] at h
    obtain ⟨hp, h⟩ := h
    subst h
    have hle : s.pending ≤ 1 := by
      cases hg : s.isGenerating <;> rw [hg] at h1 <;> simp at h1 <;> omega
    refine ⟨by simp; omega, by simp, fun hc => absurd rfl hc⟩
  | resolveFailure msg =>
    simp [step] at h
    obtain ⟨hp, h⟩ := h
    subst h
    have hgen : s.isGenerating = true := by
      by_contra hg
      rw [Bool.not_eq_true] at hg
      rw [hg] at h1
      simp at h1
      omega
    obtain ⟨hu, hb, _⟩ := h2 hgen
    rw [hgen] at h1
    simp at h1
    refine ⟨by simp [h1], by simp, fun _ => ⟨hu, hb⟩⟩
  | clear =>
    simp [step] at h
    subst h
    refine ⟨by simp [hsafe rfl], by simp, fun hc => absurd rfl hc⟩
  | selectLanguage =>
    simp [step] at h
    subst h
    exact ⟨h1, fun hg => ⟨rfl, rfl, rfl⟩, fun hc => absurd rfl hc⟩

/-- `StateInv` holds after any clear-safe execution from a state satisfying
it. -/
theorem runSafe_inv {tr : List UiEvent} {s s2 : AppState}
    (hI : StateInv s) (h : runSafe s tr = some s2) : StateInv s2 := by
  induction tr generalizing s with
  | nil =>
    simp [runSafe] at h
    subst h
    exact hI
  | cons e es ih =>
    rw [runSafe] at h
    split at h
    · exact absurd h (by simp)
    · rename_i hcond
      cases hs : step s e with
      | none => rw [hs] at h; exact absurd h (by simp)
      | some s1 =>
        rw [hs] at h
        have hsafe : e = UiEvent.clear → s.pending = 0 := by
          intro hcl
          by_contra hp
          exact hcond ⟨hcl, hp⟩
        exact ih (step_preserves_inv ⟨hI.1, hI.2.1, hI.2.2⟩ hsafe hs) h

/-- The initial state satisfies the invariant. -/
theorem initState_inv : StateInv initState := by
  refine ⟨rfl, fun h => absurd h (by decide), fun hc => ⟨rfl, rfl⟩⟩

/-- C8 counterexample: clearing while a request is in flight resets
`isGenerating` and re-enables the generate button while the first promise
is still pending; after a resubmission, the first completion arriving as a
success and the second as a failure leaves a reachable state whose error
and audio result are both present — and the failure left the prior
successful result in place instead of cleared. -/
theorem C8_counterexample :
    run initState
      [UiEvent.setText "hi", UiEvent.submit, UiEvent.clear,
       UiEvent.setText "ho", UiEvent.submit,
       UiEvent.resolveSuccess "u" [1], UiEvent.resolveFailure (some "boom")] =
      some ⟨"ho", false, some "u", some "boom", some [1], 0⟩ ∧
    (⟨"ho", false, some "u", some "boom", some [1], 0⟩ : AppState).error ≠
      none ∧
    (⟨"ho", false, some "u", some "boom", some [1], 0⟩ : AppState).audioUrl ≠
      none ∧
    (⟨"ho", false, some "u", some "boom", some [1], 0⟩ : AppState).rawBuffer ≠
      none :=
  ⟨rfl, by decide, by decide, by decide⟩

/-- C8 amended: in every state reachable while the clear action is never
used with a request still pending, the audio result (`audioUrl`,
`rawBuffer`) and the error are never both present; and from such a state
every orchestrator failure leaves the state failed, with the displayed
message as the error and with both result fields cleared. Without that
restriction, clearing mid-flight re-enables submission, two requests can
overlap, and an interleaving of their completions reaches a state holding
both a result and an error. -/
theorem C8_result_error_exclusive (tr : List UiEvent) (s : AppState)
    (h : runSafe initState tr = some s) :
    (s.error ≠ none → s.audioUrl = none ∧ s.rawBuffer = none) ∧
    (∀ msg s2, step s (.resolveFailure msg) = some s2 →
      s2.error = some (displayedError msg) ∧ s2.audioUrl = none ∧
      s2.rawBuffer = none ∧ s2.isGenerating = false) := by
  obtain ⟨h1, h2, h3⟩ := runSafe_inv initState_inv h
  refine ⟨h3, ?_⟩
  intro msg s2 hstep
  simp [step] at hstep
  obtain ⟨hp, hs2⟩ := hstep
  subst hs2
  have hgen : s.isGenerating = true := by
    by_contra hg
    rw [Bool.not_eq_true] at hg
    rw [hg] at h1
    simp at h1
    omega
  obtain ⟨hu, hb, _⟩ := h2 hgen
  exact ⟨rfl, hu, hb, rfl⟩

/-- Witness for C8 amended: a failing single request leaves no result
behind, and a failure completion from the requesting state sets exactly the
error. -/
theorem C8_result_error_exclusive_witness :
    ((⟨"hi", false, none, some connectionLostMsg, none, 0⟩ : AppState).audioUrl =
        none ∧
      (⟨"hi", false, none, some connectionLostMsg, none, 0⟩ : AppState).rawBuffer =
        none) ∧
    ((⟨"hi", false, none, some "x", none, 0⟩ : AppState).error =
        some (displayedError (some "x")) ∧
      (⟨"hi", false, none, some "x", none, 0⟩ : AppState).audioUrl = none ∧
      (⟨"hi", false, none, some "x", none, 0⟩ : AppState).rawBuffer = none ∧
      (⟨"hi", false, none, some "x", none, 0⟩ : AppState).isGenerating =
        false) :=
  ⟨(C8_result_error_exclusive
      [UiEvent.setText "hi", UiEvent.submit, UiEvent.resolveFailure none]
      ⟨"hi", false, none, some connectionLostMsg, none, 0⟩ rfl).1 (by decide),
   (C8_result_error_exclusive [UiEvent.setText "hi", UiEvent.submit]
      ⟨"hi", true, none, none, none, 1⟩ rfl).2 (some "x")
      ⟨"hi", false, none, some "x", none, 0⟩ rfl⟩

/-- C9 counterexample: after submit, clear, retype and submit again, two
submissions are pending at once in a reachable state - clearing while
requesting resets the `isGenerating` flag guarding the button, so "no two
submissions ever overlap" fails as stated. -/
theorem C9_counterexample :
    run initState
      [UiEvent.setText "hi", UiEvent.submit, UiEvent.clear,
       UiEvent.setText "ho", UiEvent.submit] =
      some ⟨"ho", true, none, none, none, 2⟩ ∧
    2 ≤ (⟨"ho", true, none, none, none, 2⟩ : AppState).pending :=
  ⟨rfl, by decide⟩

/-- C9 amended: the requesting state is entered only by a submission, which
fires only from a non-requesting state whose text is non-empty after
trimming; explicit clear returns any state to the idle status; and as long
as clear is never used while a request is pending, at most one submission
is ever in flight. Clearing while requesting re-enables the button with the
earlier request still pending, so without that restriction two submissions
can overlap. -/
theorem C9_submission_guard :
    (∀ s s1 : AppState, step s .submit = some s1 →
      s.isGenerating = false ∧ strTrim s.text ≠ "" ∧
        s1.isGenerating = true) ∧
    (∀ (s s1 : AppState) (e : UiEvent), step s e = some s1 →
      s.isGenerating = false → s1.isGenerating = true → e = .submit) ∧
    (∀ (tr : List UiEvent) (s : AppState), runSafe initState tr = some s →
      s.pending ≤ 1) ∧
    (∀ s s1 : AppState, step s .clear = some s1 →
      s1.isGenerating = false ∧ s1.audioUrl = none ∧ s1.error = none ∧
        s1.rawBuffer = none ∧ s1.text = "") := by
  refine ⟨?_, ?_, ?_, ?_⟩
  · intro s s1 h
    simp [step] at h
    obtain ⟨⟨hg, ht⟩, h⟩ := h
    subst h
    exact ⟨hg, ht, rfl⟩
  · intro s s1 e h hg hg1
    cases e with
    | setText t => simp [step] at h; subst h; rw [hg] at hg1; exact nomatch hg1
    | submit => rfl
    | resolveSuccess url buf =>
      simp [step] at h
      obtain ⟨_, h⟩ := h
      subst h
      exact nomatch hg1
    | resolveFailure msg =>
      simp [step] at h
      obtain ⟨_, h⟩ := h
      subst h
      exact nomatch hg1
    | clear => simp [step] at h; subst h; exact nomatch hg1
    | selectLanguage =>
      simp [step] at h; subst h; rw [hg] at hg1; exact nomatch hg1
  · intro tr s h
    obtain ⟨h1, _, _⟩ := runSafe_inv initState_inv h
    cases hg : s.isGenerating <;> rw [hg] at h1 <;> simp at h1 <;> omega
  · intro s s1 h
    simp [step] at h
    subst h
    exact ⟨rfl, rfl, rfl, rfl, rfl⟩

/-- Witness for C9: a submission from the idle state with text "hi" is
guarded as stated, enters the requesting state, the safe two-event trace
keeps at most one request pending, and clear lands in the idle status. -/
theorem C9_submission_guard_witness :
    ((⟨"hi", false, none, none, none, 0⟩ : AppState).isGenerating = false ∧
      strTrim (⟨"hi", false, none, none, none, 0⟩ : AppState).text ≠ "" ∧
      (⟨"hi", true, none, none, none, 1⟩ : AppState).isGenerating = true) ∧
    (UiEvent.submit = UiEvent.submit) ∧
    ((⟨"hi", true, none, none, none, 1⟩ : AppState).pending ≤ 1) ∧
    ((⟨"", false, none, none, none, 1⟩ : AppState).isGenerating = false ∧
      (⟨"", false, none, none, none, 1⟩ : AppState).audioUrl = none ∧
      (⟨"", false, none, none, none, 1⟩ : AppState).error = none ∧
      (⟨"", false, none, none, none, 1⟩ : AppState).rawBuffer = none ∧
      (⟨"", false, none, none, none, 1⟩ : AppState).text = "") :=
  ⟨C9_submission_guard.1 ⟨"hi", false, none, none, none, 0⟩
      ⟨"hi", true, none, none, none, 1⟩ rfl,
   C9_submission_guard.2.1 ⟨"hi", false, none, none, none, 0⟩
      ⟨"hi", true, none, none, none, 1⟩ UiEvent.submit rfl rfl rfl,
   C9_submission_guard.2.2.1 [UiEvent.setText "hi", UiEvent.submit]
      ⟨"hi", true, none, none, none, 1⟩ rfl,
   C9_submission_guard.2.2.2 ⟨"hi", true, none, none, none, 1⟩
      ⟨"", false, none, none, none, 1⟩ rfl⟩

end VocalBuddy
